import Mathlib

/-!
Shallow embedding of `scripts/dump_registers.py`, the helper tool of
mirage-rs/libtegra that extracts MMIO register definitions (name, offset,
access permission) from text blocks of the Tegra X1 TRM and renders a
`register_structs!` description.

Strings are modelled as `List Char`.  The two regular expressions of the
script (`REGISTER_PATTERN` and `REGISTER_META_PATTERN`) are hand-compiled
into backtracking matchers with Python `re` semantics: `search` tries each
start position left to right, greedy quantifiers (which in these patterns
only ever apply to single character classes) try the longest run first and
backtrack one character at a time.  The character classes model the ASCII
fragment of Python's `\d`, `\s` and `\w`, which covers all text the tool
consumes.  Fallible Python code (raised exceptions) is modelled with
`Except PyErr`.
-/

/-- ASCII fragment of Python's `\s` class: space, tab, newline, carriage
return, vertical tab, form feed. -/
def isWS (c : Char) : Bool :=
  c = ' ' || c = '\t' || c = '\n' || c = '\r' || c = '\x0b' || c = '\x0c'

/-- ASCII fragment of Python's `\w` class: alphanumerics and underscore. -/
def isWord (c : Char) : Bool :=
  c.isAlphanum || c = '_'

/-- The class `[\d\.]` of `REGISTER_PATTERN`. -/
def isDigitDot (c : Char) : Bool :=
  c.isDigit || c = '.'

/-- The class `[0-9a-fA-Fx]` of `REGISTER_META_PATTERN` (offset literal). -/
def isHexOrX (c : Char) : Bool :=
  c.isDigit || ('a' ≤ c && c ≤ 'f') || ('A' ≤ c && c ≤ 'F') || c = 'x'

/-- The class `[\w\/]` of `REGISTER_META_PATTERN` (permission descriptor). -/
def isWordSlash (c : Char) : Bool :=
  isWord c || c = '/'

/-- The class `.` (any character but newline, no DOTALL flag). -/
def notNL (c : Char) : Bool :=
  !(c = '\n')

/-- Value of one hexadecimal digit, upper or lower case. -/
def hexDigitVal (c : Char) : Option Nat :=
  if '0' ≤ c ∧ c ≤ '9' then some (c.toNat - '0'.toNat)
  else if 'a' ≤ c ∧ c ≤ 'f' then some (c.toNat - 'a'.toNat + 10)
  else if 'A' ≤ c ∧ c ≤ 'F' then some (c.toNat - 'A'.toNat + 10)
  else none

/-- Accumulate the value of a run of hexadecimal digits; fails on any
non-hex character. -/
def hexCore : List Char → Nat → Option Nat
  | [], acc => some acc
  | c :: rest, acc =>
    match hexDigitVal c with
    | some d => hexCore rest (acc * 16 + d)
    | none => none

/-- Python's `int(s, 16)` restricted to the strings the tool can feed it
(captures of `[0-9a-fA-Fx]+` and the `0x`-prefixed uppercase literals the
tool itself renders): an optional `0x`/`0X` prefix followed by a non-empty
run of hexadecimal digits; anything else raises `ValueError`, modelled as
`none`. -/
def pyIntHex : List Char → Option Nat
  | [] => none
  | '0' :: 'x' :: rest => if rest.isEmpty then none else hexCore rest 0
  | '0' :: 'X' :: rest => if rest.isEmpty then none else hexCore rest 0
  | l => hexCore l 0

/-- Python's `f'{n:X}'` on a natural number: minimal-length uppercase
hexadecimal digits. -/
def toHexUpper (n : Nat) : List Char :=
  (Nat.toDigits 16 n).map Char.toUpper

/-- The normalized offset literal stored in a `Register`:
`f'0x{int(offset, 16):X}'`. -/
def hexLit (n : Nat) : List Char :=
  '0' :: 'x' :: toHexUpper n

/-- Try `k` on every count from `n` down to `1`, returning the first
success: the backtracking order of a greedy quantifier. -/
def downFrom {α : Type} (k : Nat → Option α) : Nat → Option α
  | 0 => none
  | n + 1 =>
    match k (n + 1) with
    | some r => some r
    | none => downFrom k n

/-- Greedy `+` over a single character class `p` at the front of `s`:
consume the longest run first, hand the consumed characters and the
remainder to the continuation `k`, and backtrack one character at a time
on failure.  Matches Python `re` semantics for a class quantifier. -/
def plusGreedy {α : Type} (p : Char → Bool) (s : List Char)
    (k : List Char → List Char → Option α) : Option α :=
  downFrom (fun n => k (s.take n) (s.drop n)) (s.takeWhile p).length

/-- Consume the literal characters `lit` from the front of `s`. -/
def dropLit : List Char → List Char → Option (List Char)
  | [], s => some s
  | l :: ls, c :: cs => if c = l then dropLit ls cs else none
  | _ :: _, [] => none

/-- A match of `REGISTER_PATTERN`: `group(0)` (the whole span),
`group(1)` (the chapter number), `group(2)` (the register name) and
the optional `group(3)` (the description line). -/
structure HeadingMatch where
  span : List Char
  g1 : List Char
  g2 : List Char
  g3 : Option (List Char)
deriving DecidableEq, Repr

/-- A match of `REGISTER_META_PATTERN`: `group(1)` (the offset literal)
and `group(2)` (the permission descriptor). -/
structure MetaMatch where
  g1 : List Char
  g2 : List Char
deriving DecidableEq, Repr

/-- Attempt `REGISTER_PATTERN`, i.e. the regular expression
`(\d[\d\.]+\d)\s+(\w+)(?:\n(.+))?\n`, anchored at the start of `s`
(the `re.MULTILINE` flag only affects `^`/`$`, which do not occur). -/
def matchHeadingAt (s : List Char) : Option HeadingMatch :=
  match s with
  | [] => none
  | c0 :: s1 =>
    if c0.isDigit then
      plusGreedy isDigitDot s1 (fun mid s2 =>
        match s2 with
        | [] => none
        | c2 :: s3 =>
          if c2.isDigit then
            plusGreedy isWS s3 (fun ws s4 =>
              plusGreedy isWord s4 (fun name s5 =>
                let g1 := c0 :: (mid ++ [c2])
                let head := g1 ++ ws ++ name
                let withDesc : Option HeadingMatch :=
                  match s5 with
                  | '\n' :: s6 =>
                    plusGreedy notNL s6 (fun desc s7 =>
                      match s7 with
                      | '\n' :: _ =>
                        some { span := head ++ '\n' :: (desc ++ ['\n']),
                               g1 := g1, g2 := name, g3 := some desc }
                      | _ => none)
                  | _ => none
                match withDesc with
                | some m => some m
                | none =>
                  match s5 with
                  | '\n' :: _ =>
                    some { span := head ++ ['\n'], g1 := g1, g2 := name,
                           g3 := none }
                  | _ => none))
          else none)
    else none

/-- `REGISTER_PATTERN.search`: leftmost match. -/
def searchHeading : List Char → Option HeadingMatch
  | [] => none
  | c :: rest =>
    match matchHeadingAt (c :: rest) with
    | some m => some m
    | none => searchHeading rest

/-- Attempt `REGISTER_META_PATTERN`, i.e.
`Offset:\s+([0-9a-fA-Fx]+)\s+[\|I]\s+Read\/Write:\s([\w\/]+)`,
anchored at the start of `s`. -/
def matchMetaAt (s : List Char) : Option MetaMatch :=
  match dropLit ("Offset:".toList) s with
  | none => none
  | some s1 =>
    plusGreedy isWS s1 (fun _ s2 =>
      plusGreedy isHexOrX s2 (fun off s3 =>
        plusGreedy isWS s3 (fun _ s4 =>
          match s4 with
          | [] => none
          | c :: s5 =>
            if c = '|' || c = 'I' then
              plusGreedy isWS s5 (fun _ s6 =>
                match dropLit ("Read/Write:".toList) s6 with
                | none => none
                | some s7 =>
                  match s7 with
                  | [] => none
                  | c7 :: s8 =>
                    if isWS c7 then
                      plusGreedy isWordSlash s8 (fun perms _ =>
                        some { g1 := off, g2 := perms })
                    else none)
            else none)))

/-- `REGISTER_META_PATTERN.search`: leftmost match. -/
def searchMeta : List Char → Option MetaMatch
  | [] => none
  | c :: rest =>
    match matchMetaAt (c :: rest) with
    | some m => some m
    | none => searchMeta rest

/-- State machine for `re.fullmatch(r'(?:\d+\n)*', s)`: `atStart` is true
between chunks (a digit run must follow), false inside a digit run. -/
def dlAux : Bool → List Char → Bool
  | atStart, [] => atStart
  | atStart, c :: rest =>
    if c = '\n' then
      if atStart then false else dlAux true rest
    else if c.isDigit then dlAux false rest
    else false

/-- The false-positive filter of `extract_registers`:
`re.fullmatch(r'(?:\d+\n)*', span)` succeeds. -/
def isDigitLines (l : List Char) : Bool :=
  dlAux true l

/-- The heading match contributed by one text block: the `REGISTER_PATTERN`
search result, unless its whole span is a run of digit lines. -/
def blockHeading (t : List Char) : Option HeadingMatch :=
  match searchHeading t with
  | some m => if isDigitLines m.span then none else some m
  | none => none

/-- A pdfminer layout element: the tool only consumes
`LTTextBoxHorizontal` elements and skips everything else. -/
inductive LayoutElement where
  | textBoxHorizontal (text : List Char)
  | other
deriving DecidableEq, Repr

/-- `extract_registers`: scan the text blocks of one page layout and
collect, in block order, the heading matches (filtered for digit-line
false positives) and the metadata matches. -/
def extract_registers : List LayoutElement → List HeadingMatch × List MetaMatch
  | [] => ([], [])
  | LayoutElement.other :: rest => extract_registers rest
  | LayoutElement.textBoxHorizontal t :: rest =>
    let tail := extract_registers rest
    let hs :=
      match blockHeading t with
      | some m => m :: tail.1
      | none => tail.1
    let ms :=
      match searchMeta t with
      | some m => m :: tail.2
      | none => tail.2
    (hs, ms)

/-- The page loop of `main`: extract every page and concatenate the two
match sequences in page order. -/
def collectPages : List (List LayoutElement) → List HeadingMatch × List MetaMatch
  | [] => ([], [])
  | p :: rest =>
    let here := extract_registers p
    let tail := collectPages rest
    (here.1 ++ tail.1, here.2 ++ tail.2)

/-- The `MemoryPermissions` enum. -/
inductive MemoryPermissions where
  | RO
  | RW
  | WO
deriving DecidableEq, Repr

/-- The enum values: the rendered Rust types. -/
def MemoryPermissions.value : MemoryPermissions → List Char
  | MemoryPermissions.RO => "ReadOnly<u32>".toList
  | MemoryPermissions.RW => "ReadWrite<u32>".toList
  | MemoryPermissions.WO => "WriteOnly<u32>".toList

/-- `MemoryPermissions.emit_code`. -/
def MemoryPermissions.emit_code (p : MemoryPermissions) : List Char :=
  p.value

/-- `MemoryPermissions.from_str`: upper-case the descriptor, then test the
prefixes exactly as the Python `str.startswith` calls do (the literal
`'Read/Write'` is compared against the already upper-cased string).
`none` models the raised `ValueError`. -/
def MemoryPermissions.from_str (permissions : List Char) : Option MemoryPermissions :=
  let u := permissions.map Char.toUpper
  if ("R/W".toList).isPrefixOf u || ("RW".toList).isPrefixOf u
      || ("Read/Write".toList).isPrefixOf u || ("RWC".toList).isPrefixOf u then
    some MemoryPermissions.RW
  else if ("RO".toList).isPrefixOf u then some MemoryPermissions.RO
  else if ("WO".toList).isPrefixOf u then some MemoryPermissions.WO
  else none

/-- Python exceptions that can escape the modelled functions.  A bare
`assert` raises `AssertionError` with an empty message. -/
inductive PyErr where
  | assertionError (msg : List Char)
  | indexError
  | valueError
deriving DecidableEq, Repr

/-- The durable output record. -/
structure Register where
  name : List Char
  offset : List Char
  perms : MemoryPermissions
deriving DecidableEq, Repr

/-- `Register.__new__`: normalize the offset literal through
`int(offset, 16)` and `f'0x{...:X}'`, classify the permissions; either
step may raise `ValueError`. -/
def Register.new? (name offset perms : List Char) : Except PyErr Register :=
  match pyIntHex offset with
  | none => Except.error PyErr.valueError
  | some v =>
    match MemoryPermissions.from_str perms with
    | none => Except.error PyErr.valueError
    | some p => Except.ok { name := name, offset := hexLit v, perms := p }

/-- `Register.from_regex_match`: build a record from the name group of the
heading match and the offset/permission groups of the metadata match. -/
def Register.from_regex_match (h : HeadingMatch) (m : MetaMatch) : Except PyErr Register :=
  Register.new? h.g2 m.g1 m.g2

/-- `Register.emit_code`: `f'({offset} => pub {name}: {perms}),'`. -/
def Register.emit_code (r : Register) : List Char :=
  '(' :: (r.offset ++ " => pub ".toList ++ r.name ++ ": ".toList
    ++ r.perms.emit_code ++ "),".toList)

/-- The `while True` pop loop of `generate_code`: pair the two sequences
positionally until one is exhausted (the `IndexError` of `pop(0)` is
caught and ends the loop); a `ValueError` from record construction
escapes. -/
def buildLoop : List HeadingMatch → List MetaMatch → List Register →
    Except PyErr (List Register)
  | [], _, acc => Except.ok acc.reverse
  | _ :: _, [], acc => Except.ok acc.reverse
  | h :: hs, m :: ms, acc =>
    match Register.from_regex_match h m with
    | Except.ok r => buildLoop hs ms (r :: acc)
    | Except.error e => Except.error e

/-- Sort keys: Python's `sorted(..., key=...)` evaluates
`int(reg.offset, 16)` once per element, in list order, before sorting;
a `ValueError` there escapes. -/
def keyRegisters : List Register → Except PyErr (List (Nat × Register))
  | [] => Except.ok []
  | r :: rest =>
    match pyIntHex r.offset with
    | none => Except.error PyErr.valueError
    | some k =>
      match keyRegisters rest with
      | Except.ok ks => Except.ok ((k, r) :: ks)
      | Except.error e => Except.error e

/-- Ascending order on the sort keys.  Python's `sorted` is a stable
ascending sort; `List.insertionSort` with this non-strict relation
(which inserts an element before the strictly larger ones and after its
equals) is observationally the same stable ascending sort. -/
def keyRel (a b : Nat × Register) : Prop :=
  a.1 ≤ b.1

instance : DecidableRel keyRel :=
  fun a b => Nat.decLe a.1 b.1

instance : IsTotal (Nat × Register) keyRel :=
  ⟨fun a b => Nat.le_total a.1 b.1⟩

instance : IsTrans (Nat × Register) keyRel :=
  ⟨fun _ _ _ => Nat.le_trans⟩

/-- The fixed part of `FMT` before the substituted field list (the doubled
braces of the Python format string render as single braces). -/
def fmtBefore : List Char :=
  ("use register::\x7bmmio::*, register_structs\x7d;\n\nregister_structs! \x7b\n    #[allow(non_snake_case)]\n    pub Registers \x7b\n        ").toList

/-- The fixed part of `FMT` after the substituted field list. -/
def fmtAfter : List Char :=
  "\n    \x7d\n\x7d\n\n".toList

/-- The result of a successful `generate_code` run: the sorted keyed
records, the terminator offset, the rendered member lines (fields plus
terminator) and the full output document written to the file. -/
structure GenOut where
  sortedKeyed : List (Nat × Register)
  termOffset : Nat
  members : List (List Char)
  code : List Char
deriving DecidableEq, Repr

/-- `generate_code`: assert equal match counts (a bare `assert`, so the
`AssertionError` carries no message), build the records positionally,
compute the terminator offset from `registers[-1]` (`IndexError` when the
list is empty), sort by numeric offset, render the member lines and wrap
them in `FMT`.  An `Except.error` models an exception escaping before the
output file is opened, so no file is written. -/
def generate_code (register_matches : List HeadingMatch)
    (register_meta_matches : List MetaMatch) : Except PyErr GenOut :=
  if register_matches.length = register_meta_matches.length then
    match buildLoop register_matches register_meta_matches [] with
    | Except.error e => Except.error e
    | Except.ok registers =>
      match registers.getLast? with
      | none => Except.error PyErr.indexError
      | some last =>
        match pyIntHex last.offset with
        | none => Except.error PyErr.valueError
        | some lastVal =>
          let final_offset := lastVal + 4
          let terminator := '(' :: (hexLit final_offset ++ " => @END),".toList)
          match keyRegisters registers with
          | Except.error e => Except.error e
          | Except.ok keyed =>
            let sortedKeyed := List.insertionSort keyRel keyed
            let members := sortedKeyed.map (fun kr => kr.2.emit_code) ++ [terminator]
            Except.ok { sortedKeyed := sortedKeyed,
                        termOffset := final_offset,
                        members := members,
                        code := fmtBefore ++ List.intercalate ['\n'] members ++ fmtAfter }
  else
    Except.error (PyErr.assertionError [])

/-- The end-to-end pipeline of `main`, minus the file system: extract all
pages, then generate the output document. -/
def processPages (pages : List (List LayoutElement)) : Except PyErr GenOut :=
  let collected := collectPages pages
  generate_code collected.1 collected.2

/-- Claim-side language of the false-positive filter: strings that consist
only of digit-and-newline sequences, i.e. concatenations of a non-empty
digit run followed by a newline. -/
inductive DigitLines : List Char → Prop where
  | nil : DigitLines []
  | cons (ds rest : List Char) (hne : ds ≠ []) (hds : ds.all Char.isDigit = true)
      (h : DigitLines rest) : DigitLines (ds ++ '\n' :: rest)

/-- A heading match with the given chapter and name groups (the span and
description play no role in record building). -/
def mkHeading (chapter name : List Char) : HeadingMatch :=
  { span := chapter ++ ' ' :: (name ++ ['\n']), g1 := chapter, g2 := name, g3 := none }

/-- A metadata match with the given offset and permission groups. -/
def mkMeta (off perms : List Char) : MetaMatch :=
  { g1 := off, g2 := perms }

/-- Page-1 text block of the end-to-end scenario. -/
def clkEnbBlock : List Char :=
  "2.1 CLK_OUT_ENB\nOffset: 0x30 | Read/Write: R/W\n".toList

/-- Page-2 text block of the end-to-end scenario. -/
def clkDisBlock : List Char :=
  "2.2 CLK_OUT_DIS\nOffset: 0x10 | Read/Write: RO\n".toList

/-- Page 1 of the end-to-end scenario: one horizontal text box. -/
def clkPage1 : List LayoutElement :=
  [LayoutElement.textBoxHorizontal clkEnbBlock]

/-- Page 2 of the end-to-end scenario: one horizontal text box. -/
def clkPage2 : List LayoutElement :=
  [LayoutElement.textBoxHorizontal clkDisBlock]

/-- The end-to-end scenario run in the given page order. -/
def clkRun : Except PyErr GenOut :=
  processPages [clkPage1, clkPage2]

/-- The end-to-end scenario run with the two pages swapped. -/
def clkRunRev : Except PyErr GenOut :=
  processPages [clkPage2, clkPage1]

/-- Three heading matches, for the pairing-mismatch scenario. -/
def heads3 : List HeadingMatch :=
  [mkHeading ("3.1".toList) ("REG_A".toList),
   mkHeading ("3.2".toList) ("REG_B".toList),
   mkHeading ("3.3".toList) ("REG_C".toList)]

/-- Two metadata matches, for the pairing-mismatch scenario. -/
def metas2 : List MetaMatch :=
  [mkMeta ("0x0".toList) ("RO".toList), mkMeta ("0x4".toList) ("RO".toList)]

/-- Two text blocks that both carry offset 0x10, for the monotonicity
counterexample. -/
def dupBlockA : List Char :=
  "9.1 REG_A\nOffset: 0x10 | Read/Write: RO\n".toList

/-- Second text block that also carries offset 0x10. -/
def dupBlockB : List Char :=
  "9.2 REG_B\nOffset: 0x10 | Read/Write: RO\n".toList

/-- The duplicate-offset scenario run. -/
def dupRun : Except PyErr GenOut :=
  processPages [[LayoutElement.textBoxHorizontal dupBlockA],
                [LayoutElement.textBoxHorizontal dupBlockB]]

/-- A single heading match, for the sortedness witness. -/
def oneHeads : List HeadingMatch :=
  [mkHeading ("1.1".toList) (['A'])]

/-- A single metadata match, for the sortedness witness. -/
def oneMetas : List MetaMatch :=
  [mkMeta (['0']) ("RO".toList)]

/-- The output of `generate_code oneHeads oneMetas`, spelled out. -/
def oneOut : GenOut :=
  { sortedKeyed := [(0, { name := ['A'], offset := "0x0".toList,
                          perms := MemoryPermissions.RO })],
    termOffset := 4,
    members := ["(0x0 => pub A: ReadOnly<u32>),".toList,
                "(0x4 => @END),".toList],
    code := fmtBefore
      ++ List.intercalate ['\n'] ["(0x0 => pub A: ReadOnly<u32>),".toList,
                                  "(0x4 => @END),".toList]
      ++ fmtAfter }

/-- The block of digit lines used as the filter witness. -/
def dlBlock : List Char :=
  "123\n456\n".toList

/-- The heading match that `REGISTER_PATTERN` finds in `dlBlock`. -/
def dlMatch : HeadingMatch :=
  { span := dlBlock, g1 := "123".toList, g2 := "456".toList, g3 := none }

/-- A heading match paired with an unparsable offset literal. -/
def badHead : List HeadingMatch :=
  [mkHeading ("5.1".toList) ("REG_X".toList)]

/-- A metadata match whose offset literal `3x0` is not a hexadecimal
numeral although it matches the `[0-9a-fA-Fx]+` class. -/
def badMeta : List MetaMatch :=
  [mkMeta ("3x0".toList) ("RO".toList)]

theorem dlAux_digits_append (ds : List Char) (rest : List Char)
    (hds : ds.all Char.isDigit = true) :
    dlAux false (ds ++ '\n' :: rest) = dlAux true rest := by
  induction ds with
  | nil => simp [dlAux]
  | cons d ds ih =>
    rw [List.all_cons, Bool.and_eq_true] at hds
    have hd : d ≠ '\n' := by
      intro e
      rw [e] at hds
      exact absurd hds.1 (by decide)
    show dlAux false (d :: (ds ++ '\n' :: rest)) = dlAux true rest
    rw [dlAux, if_neg (by simpa using hd), if_pos hds.1]
    exact ih hds.2

theorem digitLines_isDigitLines {l : List Char} (h : DigitLines l) :
    isDigitLines l = true := by
  induction h with
  | nil => rfl
  | cons ds rest hne hds hrest ih =>
    cases ds with
    | nil => exact absurd rfl hne
    | cons d ds =>
      rw [List.all_cons, Bool.and_eq_true] at hds
      have hd : d ≠ '\n' := by
        intro e
        rw [e] at hds
        exact absurd hds.1 (by decide)
      show dlAux true (d :: (ds ++ '\n' :: rest)) = true
      rw [dlAux, if_neg (by simpa using hd), if_pos hds.1,
        dlAux_digits_append ds rest hds.2]
      exact ih

/-- Claim C1: the claim says the sentinel offset equals the maximum
register offset plus 4 for every non-empty register set.  The code
instead computes it from `registers[-1]`, the last *extracted* record,
before sorting: on the end-to-end run whose extraction order is
offset 0x30 then 0x10, the sorted offsets are [0x10, 0x30] with maximum
0x30, yet the emitted sentinel offset is 0x14 = 0x10 + 4, not
0x34 = 0x30 + 4. -/
theorem c1_sentinel_offset_not_max_plus_four :
    clkRun.toOption.map (fun o => o.sortedKeyed.map Prod.fst) = some [0x10, 0x30] ∧
    clkRun.toOption.map GenOut.termOffset = some 0x14 ∧
    (0x14 : Nat) ≠ 0x30 + 4 :=
  ⟨by decide, by decide, by decide⟩

/-- Claim C2: on the two-page scenario the output does contain exactly two
field entries, the 0x10 entry (classified ReadOnly) before the 0x30 entry
(classified ReadWrite) — but the terminator entry carries offset 0x14,
not 0x34 as the claim states, because the code derives it from the last
extracted record (0x10) rather than the highest one. -/
theorem c2_end_to_end_terminator_0x14_not_0x34 :
    clkRun.toOption.map GenOut.members =
      some ["(0x10 => pub CLK_OUT_DIS: ReadOnly<u32>),".toList,
            "(0x30 => pub CLK_OUT_ENB: ReadWrite<u32>),".toList,
            "(0x14 => @END),".toList] ∧
    clkRun.toOption.map (fun o => o.sortedKeyed.map (fun kr => (kr.1, kr.2.perms))) =
      some [(0x10, MemoryPermissions.RO), (0x30, MemoryPermissions.RW)] ∧
    clkRun.toOption.map GenOut.termOffset = some 0x14 ∧
    (0x14 : Nat) ≠ 0x34 :=
  ⟨by decide, by decide, by decide, by decide⟩

/-- Claim C3: the claim says every casing variant of the known prefixes is
classified, naming "Read/Write" among them.  The classifier upper-cases
its input before comparing, so the `'Read/Write'` prefix in the code can
never match: every casing of a "Read/Write"-prefixed descriptor is
rejected (`ValueError`), while the other documented prefixes and the
rejection of unknown descriptors behave as claimed. -/
theorem c3_read_write_descriptor_rejected :
    MemoryPermissions.from_str ("Read/Write".toList) = none ∧
    MemoryPermissions.from_str ("READ/WRITE".toList) = none ∧
    MemoryPermissions.from_str ("read/write".toList) = none ∧
    MemoryPermissions.from_str ("R/W".toList) = some MemoryPermissions.RW ∧
    MemoryPermissions.from_str ("r/w".toList) = some MemoryPermissions.RW ∧
    MemoryPermissions.from_str ("RW".toList) = some MemoryPermissions.RW ∧
    MemoryPermissions.from_str ("RWC".toList) = some MemoryPermissions.RW ∧
    MemoryPermissions.from_str ("rwc".toList) = some MemoryPermissions.RW ∧
    MemoryPermissions.from_str ("RO".toList) = some MemoryPermissions.RO ∧
    MemoryPermissions.from_str ("ro".toList) = some MemoryPermissions.RO ∧
    MemoryPermissions.from_str ("WO".toList) = some MemoryPermissions.WO ∧
    MemoryPermissions.from_str ("wo".toList) = some MemoryPermissions.WO ∧
    MemoryPermissions.from_str ("XYZ".toList) = none := by
  decide

/-- Claim C4 (counterexample): on 3 heading matches and 2 metadata
matches the code does abort before building any register, but the failure
is a bare `assert`, whose `AssertionError` carries an empty message: the
two counts are reported nowhere in it. -/
theorem c4_counterexample_assert_message_empty :
    generate_code heads3 metas2 = Except.error (PyErr.assertionError []) ∧
    '3' ∉ ([] : List Char) ∧ '2' ∉ ([] : List Char) :=
  ⟨rfl, by decide, by decide⟩

/-- Claim C4 (amended): for every pair of match sequences of unequal
length the record builder aborts with a fatal `AssertionError` and
produces no registers — but the failure carries an empty message and does
not report the two counts. -/
theorem c4_unequal_counts_abort_bare_assert (hs : List HeadingMatch)
    (ms : List MetaMatch) (h : hs.length ≠ ms.length) :
    generate_code hs ms = Except.error (PyErr.assertionError []) := by
  unfold generate_code
  rw [if_neg h]

theorem c4_unequal_counts_abort_witness :
    heads3.length ≠ metas2.length ∧
    generate_code heads3 metas2 = Except.error (PyErr.assertionError []) :=
  ⟨by decide, c4_unequal_counts_abort_bare_assert heads3 metas2 (by decide)⟩

/-- Claim C5: when both match sequences are empty the code emitter fails —
`registers[-1]` raises an uncaught `IndexError` before the output file is
opened — so no output file is written; the same holds for the end-to-end
pipeline on an empty page list. -/
theorem c5_empty_extraction_errors_no_output :
    generate_code [] [] = Except.error PyErr.indexError ∧
    processPages [] = Except.error PyErr.indexError :=
  ⟨rfl, rfl⟩

/-- Claim C6 (counterexample): two extracted registers may carry the same
offset; the emitted document then has two adjacent field entries whose
numeric offsets are equal, so the claimed strict inequality fails. -/
theorem c6_counterexample_duplicate_offsets :
    dupRun.toOption.map (fun o => o.sortedKeyed.map Prod.fst) = some [0x10, 0x10] ∧
    ¬((0x10 : Nat) < 0x10) :=
  ⟨by decide, by decide⟩

/-- Claim C6 (amended): in the emitted document the rendered register
entries are sorted by numeric offset value, so for all adjacent pairs
except the sentinel, entry[i].offset ≤ entry[i+1].offset (strictness can
fail only when two registers share an offset). -/
theorem c6_sorted_nondecreasing_by_offset (hs : List HeadingMatch)
    (ms : List MetaMatch) (o : GenOut) (h : generate_code hs ms = Except.ok o) :
    List.Chain' (fun a b : Nat × Register => a.1 ≤ b.1) o.sortedKeyed := by
  unfold generate_code at h
  split at h
  · split at h
    · exact absurd h (by simp)
    · split at h
      · exact absurd h (by simp)
      · split at h
        · exact absurd h (by simp)
        · split at h
          · exact absurd h (by simp)
          · rw [Except.ok.injEq] at h
            subst h
            exact List.Pairwise.chain' (List.sorted_insertionSort keyRel _)
  · exact absurd h (by simp)

theorem c6_sorted_nondecreasing_witness :
    generate_code oneHeads oneMetas = Except.ok oneOut ∧
    List.Chain' (fun a b : Nat × Register => a.1 ≤ b.1) oneOut.sortedKeyed :=
  ⟨rfl, c6_sorted_nondecreasing_by_offset oneHeads oneMetas oneOut rfl⟩

/-- Claim C7: for every text block on which `REGISTER_PATTERN` matches
with a span that consists only of digit-and-newline sequences, the
extractor contributes no heading match for that block: the
`re.fullmatch(r'(?:\d+\n)*', ...)` filter rejects exactly these spans. -/
theorem c7_digit_line_span_yields_no_heading (t : List Char) (m : HeadingMatch)
    (hs : searchHeading t = some m) (hdl : DigitLines m.span) :
    (extract_registers [LayoutElement.textBoxHorizontal t]).1 = [] := by
  have hb : blockHeading t = none := by
    simp only [blockHeading, hs, digitLines_isDigitLines hdl, if_true]
  simp only [extract_registers, hb]

theorem c7_digit_line_span_witness :
    searchHeading dlBlock = some dlMatch ∧
    DigitLines dlMatch.span ∧
    (extract_registers [LayoutElement.textBoxHorizontal dlBlock]).1 = [] := by
  have h1 : searchHeading dlBlock = some dlMatch := by decide
  have h2 : DigitLines dlMatch.span := by
    show DigitLines ("123\n456\n".toList)
    have e : ("123\n456\n".toList)
        = ['1', '2', '3'] ++ '\n' :: (['4', '5', '6'] ++ '\n' :: []) := by decide
    rw [e]
    exact DigitLines.cons _ _ (by decide) (by decide)
      (DigitLines.cons _ _ (by decide) (by decide) DigitLines.nil)
  exact ⟨h1, h2, c7_digit_line_span_yields_no_heading dlBlock dlMatch h1 h2⟩

/-- Claim C8: whenever the captured offset literal parses as hexadecimal
(value `v`) and record construction succeeds, the stored offset is the
string `0x` followed by the uppercase hexadecimal rendering of `v`,
regardless of the literal's original casing or prefix style. -/
theorem c8_offset_normalized_uppercase_hex (name off perms : List Char)
    (v : Nat) (r : Register) (hv : pyIntHex off = some v)
    (hr : Register.new? name off perms = Except.ok r) :
    r.offset = '0' :: 'x' :: toHexUpper v := by
  simp only [Register.new?, hv] at hr
  cases hp : MemoryPermissions.from_str perms with
  | none =>
    rw [hp] at hr
    exact absurd hr (by simp)
  | some p =>
    rw [hp] at hr
    rw [Except.ok.injEq] at hr
    rw [← hr]
    rfl

theorem c8_offset_normalized_witness :
    pyIntHex ("1f".toList) = some 31 ∧
    Register.new? ("CLK".toList) ("1f".toList) ("RO".toList) =
      Except.ok { name := "CLK".toList, offset := "0x1F".toList,
                  perms := MemoryPermissions.RO } ∧
    ({ name := "CLK".toList, offset := "0x1F".toList,
       perms := MemoryPermissions.RO } : Register).offset
      = '0' :: 'x' :: toHexUpper 31 :=
  ⟨rfl, rfl,
    c8_offset_normalized_uppercase_hex ("CLK".toList) ("1f".toList) ("RO".toList)
      31 _ rfl rfl⟩

set_option maxRecDepth 8000 in
/-- Claim C9: the claim says the emitted document is invariant under
permutations of the page processing order.  It is not: the terminator
offset comes from the last extracted record, so processing the same two
pages in the two orders yields terminator offsets 0x14 and 0x34 and two
different output documents. -/
theorem c9_output_differs_under_page_reorder :
    clkRun.toOption.map GenOut.termOffset = some 0x14 ∧
    clkRunRev.toOption.map GenOut.termOffset = some 0x34 ∧
    clkRun.toOption.map GenOut.code ≠ clkRunRev.toOption.map GenOut.code :=
  ⟨by decide, by decide, by decide⟩

/-- Claim C10: the metadata pattern's offset class `[0-9a-fA-Fx]+`
accepts literals with `x` at any position (`3x0`, `xx` are captured);
such literals do not parse as hexadecimal, so record construction raises
`ValueError`, which escapes `generate_code` and aborts the run; and in
general construction succeeds exactly when the offset literal parses as
hexadecimal and the permission descriptor matches a known prefix. -/
theorem c10_register_construction_iff_parse_and_classify :
    (searchMeta ("Offset: 3x0 | Read/Write: RO\n".toList)).map MetaMatch.g1
      = some ("3x0".toList) ∧
    (searchMeta ("Offset: xx | Read/Write: RO\n".toList)).map MetaMatch.g1
      = some ("xx".toList) ∧
    pyIntHex ("3x0".toList) = none ∧
    pyIntHex ("xx".toList) = none ∧
    generate_code badHead badMeta = Except.error PyErr.valueError ∧
    ∀ (n o p : List Char), (Register.new? n o p).isOk = true ↔
      ((pyIntHex o).isSome = true ∧ (MemoryPermissions.from_str p).isSome = true) := by
  refine ⟨by decide, by decide, rfl, rfl, rfl, ?_⟩
  intro n o p
  cases hpo : pyIntHex o <;> cases hfp : MemoryPermissions.from_str p <;>
    simp [Register.new?, hpo, hfp, Except.isOk, Except.toBool]
